import Mathlib

/-!
Shallow embedding of the `go-gsst` command-line client (`src/main.go`) and of
the interface behavior of its collaborator packages, for checking the
natural-language specification against the code.

The repository source available here is `src/main.go` alone; the packages
`pkg/opts`, `pkg/client`, `pkg/str` and `pkg/logger` are referenced but their
code is not present.  Definitions taken from `main.go` are translated
line-by-line; definitions for the missing packages are marked
`Modelled from the spec:` and follow the spec's words for that interface.
-/

set_option maxRecDepth 8192

namespace Gsst

/-- Output encoding of transcription results (`opts.Binary` / `opts.Text`). -/
inductive OutputEncoding where
  | Binary
  | Text
  deriving DecidableEq, Repr

/-- Modelled from the spec: the immutable Configuration produced by the
builder in the missing `pkg/opts` package, with its fields from spec §3.
Field defaults are the Go zero values (the spec pins only the
`outputEncoding` default, Binary); apart from `output`, no default is
observable through `main.go`, which always supplies `language`, `maxAlts`,
`pFilter` and `userAgent` via non-empty flag defaults. -/
structure Options where
  verbose : Bool := false
  filePath : String := ""
  apiKey : String := ""
  output : OutputEncoding := OutputEncoding.Binary
  language : String := ""
  continuous : Bool := false
  interim : Bool := false
  maxAlternatives : Int := 0
  profanityFilter : Int := 0
  userAgent : String := ""
  deriving DecidableEq, Repr

/-- Modelled from the spec: one option-setter of the builder-style `opts`
package (`opts.Verbose`, `opts.FilePath`, ...), as used by `fromFlags`. -/
inductive Opt where
  | verbose (b : Bool)
  | filePath (s : String)
  | apiKey (s : String)
  | output (e : OutputEncoding)
  | language (s : String)
  | continuous (b : Bool)
  | interim (b : Bool)
  | maxAlts (n : Int)
  | profanityFilter (n : Int)
  | userAgent (s : String)
  deriving DecidableEq, Repr

/-- Modelled from the spec: applying one option-setter to a configuration. -/
def applyOpt (o : Options) : Opt → Options
  | Opt.verbose b => { o with verbose := b }
  | Opt.filePath s => { o with filePath := s }
  | Opt.apiKey s => { o with apiKey := s }
  | Opt.output e => { o with output := e }
  | Opt.language s => { o with language := s }
  | Opt.continuous b => { o with continuous := b }
  | Opt.interim b => { o with interim := b }
  | Opt.maxAlts n => { o with maxAlternatives := n }
  | Opt.profanityFilter n => { o with profanityFilter := n }
  | Opt.userAgent s => { o with userAgent := s }

/-- Modelled from the spec: `opts.Apply(options...)` — builder-style
accumulation of the option-setters, in order, over the default value. -/
def applyAll (l : List Opt) : Options :=
  l.foldl applyOpt {}

/-- The default user agent `opts.DefaultUserAgent` (value quoted in the
usage text of `src/main.go:60`). -/
def DefaultUserAgent : String :=
  "Mozilla/5.0 (X11; Linux x86_64) AppleWebKit/537.36 (KHTML, like Gecko) Chrome/119.0.0.0 Safari/537.36"

/-- Modelled from the spec: `opts.DefaultSampleRate`, the fixed default
sample rate supplied externally for live (stdin) input.  Its numeric value
lives in the missing `pkg/opts`; the claims only need that it is one fixed
constant, used verbatim on the microphone path of `main`. -/
def DefaultSampleRate : Nat := 16000

/-- Modelled from the spec: `str.GetOrDefault` — "`userAgent` falls back to
a fixed default string if empty". -/
def getOrDefault (s d : String) : String :=
  if s = "" then d else s

/-- Value of a list of decimal digit characters; `none` if the list is empty
or contains a non-digit.  Helper for the embedding of `strconv.Atoi`. -/
def digitsVal (cs : List Char) : Option Nat :=
  match cs with
  | [] => none
  | _ =>
    cs.foldl
      (fun acc c =>
        match acc with
        | none => none
        | some n => if c.isDigit then some (n * 10 + (c.toNat - 48)) else none)
      (some 0)

/-- Embedding of Go `strconv.Atoi`: an optional sign followed by at least one
decimal digit; anything else is a parse error (`none`).  The `ErrRange`
overflow error for values outside the machine-int range is not modelled; no
claim depends on it. -/
def atoi (s : String) : Option Int :=
  match s.data with
  | '+' :: rest => (digitsVal rest).map Int.ofNat
  | '-' :: rest => (digitsVal rest).map (fun n => -(Int.ofNat n))
  | cs => (digitsVal cs).map Int.ofNat

/-- The only failure `fromFlags` can produce: `panic(err)` on an
unparsable numeric flag (`src/main.go:155` and `src/main.go:162`).
The carried string is the offending flag value. -/
inductive BuildFailure where
  | panic (badValue : String)
  deriving DecidableEq, Repr

/-- The command-line flag values read by `main` (`src/main.go:36-47`),
after flag parsing. -/
structure Flags where
  verbose : Bool
  filePath : String
  apiKey : String
  output : String
  language : String
  continuous : Bool
  interim : Bool
  maxAlts : String
  pFilter : String
  userAgent : String
  deriving DecidableEq, Repr

/-- The flag defaults registered in `main` (`src/main.go:51-60`): note the
`language` default is the string "null" and the numeric flags default to
"1" and "2". -/
def defaultFlags : Flags :=
  { verbose := false
    filePath := ""
    apiKey := ""
    output := ""
    language := "null"
    continuous := false
    interim := false
    maxAlts := "1"
    pFilter := "2"
    userAgent := DefaultUserAgent }

/-- The unconditional option appends of `fromFlags` (`src/main.go:127-151`),
in source order: each `if` appends one setter to the slice, with the
`output` value mapped to Text exactly for "json" and to Binary otherwise
(`src/main.go:136-142`). -/
def pureOpts (f : Flags) : List Opt :=
  (if f.verbose then [Opt.verbose true] else []) ++
  (if f.filePath ≠ "" then [Opt.filePath f.filePath] else []) ++
  (if f.apiKey ≠ "" then [Opt.apiKey f.apiKey] else []) ++
  (if f.output ≠ "" then
    [Opt.output (if f.output = "json" then OutputEncoding.Text else OutputEncoding.Binary)]
   else []) ++
  (if f.language ≠ "" then [Opt.language f.language] else []) ++
  (if f.continuous then [Opt.continuous true] else []) ++
  (if f.interim then [Opt.interim true] else [])

/-- A numeric flag handled as in `src/main.go:152-165`: skipped when empty,
parsed with `strconv.Atoi` otherwise, with a parse failure raising
`panic(err)`. -/
def numOpt (mk : Int → Opt) (s : String) : Except BuildFailure (List Opt) :=
  if s = "" then Except.ok []
  else
    match atoi s with
    | none => Except.error (BuildFailure.panic s)
    | some n => Except.ok [mk n]

/-- `fromFlags` (`src/main.go:123-169`): build the option slice in source
order — the seven unconditional appends, then `maxAlts` (panicking on a
parse error at `src/main.go:155`), then `pFilter` (panicking at
`src/main.go:162`), then the user agent with its empty-string fallback —
and apply it.  The sequential early-panic control flow of the Go code is
rendered by matching `maxAlts` before `pFilter`. -/
def fromFlags (f : Flags) : Except BuildFailure Options :=
  match numOpt Opt.maxAlts f.maxAlts with
  | Except.error e => Except.error e
  | Except.ok ma =>
    match numOpt Opt.profanityFilter f.pFilter with
    | Except.error e => Except.error e
    | Except.ok pf =>
      Except.ok (applyAll
        (pureOpts f ++ ma ++ pf ++
          [Opt.userAgent (getOrDefault f.userAgent DefaultUserAgent)]))

/-- One iteration's worth of input to the microphone loop
(`src/main.go:103-119`): what `os.Stdin.Read(bs)` returned, and — for a
read with `n > 0` — whether the following `pw.Write(bs)` succeeded.
`read chunk ok`: the read placed `chunk` (the `n` fresh bytes) at the start
of the buffer; the read error, if any, is discarded by the code in this
branch (`err` is shadowed at `src/main.go:108`).
`eof`: `n = 0` with `err == io.EOF`.  `readErr`: `n = 0` with any other
non-nil error. -/
inductive MicEvent where
  | read (chunk : List Nat) (writeOk : Bool)
  | eof
  | readErr
  deriving DecidableEq, Repr

/-- How the microphone loop of `main` ends.
`ranOut`: the modelled input sequence was exhausted with the loop still
running (the Go loop is infinite until a terminator).
`brokeEOF pwClosed`: the loop hit `break` on EOF (`src/main.go:114`) and
`main` returned; `pwClosed` records whether the pipe's write side was
closed on this path — the loop body contains no `pw.Close()`, and the
deferred closes at `src/main.go:97-98` belong to the goroutine running
`c.Stream`, which they follow, so they cannot have run when the process
exits.
`exited code`: `os.Exit(code)` (`src/main.go:117`).
`panicked`: `panic(err)` after a failed pipe write (`src/main.go:110`). -/
inductive MicOutcome where
  | ranOut
  | brokeEOF (pwClosed : Bool)
  | exited (code : Nat)
  | panicked
  deriving DecidableEq, Repr

/-- Result of running the microphone loop: the successive `pw.Write`
payloads, in order, and how the loop ended. -/
structure MicResult where
  writes : List (List Nat)
  outcome : MicOutcome
  deriving DecidableEq, Repr

/-- The microphone loop of `main` (`src/main.go:103-119`), with the buffer
`bs` threaded through iterations.  A read of `n` fresh bytes overwrites the
first `n` buffer bytes (`chunk ++ buf.drop chunk.length`), and the write at
`src/main.go:108` sends the WHOLE buffer `bs`, not `bs[:n]` — so each
successful write contributes the full updated buffer.  A failed write
panics before any bytes of that write are delivered; EOF breaks the loop;
any other read error exits with status 1. -/
def micLoop : List MicEvent → List Nat → MicResult
  | [], _ => { writes := [], outcome := MicOutcome.ranOut }
  | MicEvent.read chunk writeOk :: rest, buf =>
    let buf2 := chunk ++ buf.drop chunk.length
    if writeOk then
      let r := micLoop rest buf2
      { writes := buf2 :: r.writes, outcome := r.outcome }
    else
      { writes := [], outcome := MicOutcome.panicked }
  | MicEvent.eof :: _, _ => { writes := [], outcome := MicOutcome.brokeEOF false }
  | MicEvent.readErr :: _, _ => { writes := [], outcome := MicOutcome.exited 1 }

/-- The initial 1kB read buffer `bs := make([]byte, 1024)`
(`src/main.go:92`); Go zero-initializes it. -/
def initialBuf : List Nat := List.replicate 1024 0

/-- Result of `goflac.ParseFile` when it succeeds: the stream-info result
(`f.GetStreamInfo()`, yielding the declared sample rate) and the marshalled
bytes `f.Marshal()` that `main` streams. -/
structure FlacMeta where
  streamInfo : Except String Nat
  marshal : List Nat
  deriving Repr

/-- The external world one run of `main` interacts with: the outcome of
parsing the file named by `-file` (used only when `filePath ≠ ""`), and the
sequence of stdin read results (used only in microphone mode). -/
structure World where
  flacParse : Except String FlacMeta
  stdin : List MicEvent
  deriving Repr

/-- How one run of `main` goes after flag parsing.
`configPanic`: `fromFlags` panicked; `c.Stream` was never invoked.
`exited code`: `os.Exit(code)` before streaming (file-mode parse errors).
`fileStreamed body rate o`: `c.Stream(bytes.NewBuffer(f.Marshal()), rate, o)`
was invoked (`src/main.go:87`).
`micStreamed rate o r`: microphone mode — `c.Stream(pr, rate, o)` was
invoked with the pipe as body (`src/main.go:100`) and the producer loop ran
with result `r`. -/
inductive RunOutcome where
  | configPanic
  | exited (code : Nat)
  | fileStreamed (body : List Nat) (sampleRate : Nat) (o : Options)
  | micStreamed (sampleRate : Nat) (o : Options) (r : MicResult)
  deriving DecidableEq, Repr

/-- The file branch of `main` (`src/main.go:73-88`): a `goflac.ParseFile`
error or a `GetStreamInfo` error exits with status 1 (`src/main.go:78`,
`src/main.go:83`); otherwise `c.Stream` is called with the marshalled
bytes and the file's declared sample rate (`src/main.go:87`). -/
def fileMode (pf : Except String FlacMeta) (o : Options) : RunOutcome :=
  match pf with
  | Except.error _ => RunOutcome.exited 1
  | Except.ok meta =>
    match meta.streamInfo with
    | Except.error _ => RunOutcome.exited 1
    | Except.ok rate => RunOutcome.fileStreamed meta.marshal rate o

/-- `main` after flag parsing (`src/main.go:68-121`): build the options
first (`src/main.go:70`; a panic there ends the run), then branch on
`filePath`.  File mode runs `fileMode`; microphone mode calls `c.Stream`
with the pipe and `opts.DefaultSampleRate` and runs the producer loop
(`src/main.go:89-120`). -/
def runMain (f : Flags) (w : World) : RunOutcome :=
  match fromFlags f with
  | Except.error _ => RunOutcome.configPanic
  | Except.ok o =>
    if f.filePath ≠ "" then fileMode w.flacParse o
    else RunOutcome.micStreamed DefaultSampleRate o (micLoop w.stdin initialBuf)

/-- Whether the streaming operation `c.Stream` was invoked in this run. -/
def streamInvoked : RunOutcome → Bool
  | RunOutcome.fileStreamed _ _ _ => true
  | RunOutcome.micStreamed _ _ _ => true
  | _ => false

/-- Modelled from the spec: the state of the conduit (`io.Pipe`) between the
stdin producer and the HTTP request body — "a unidirectional, backpressured
conduit"; `pending` is the data written but not yet drained by the
consumer. -/
structure PipeState where
  pending : List Nat
  deriving DecidableEq, Repr

/-- Modelled from the spec: the conduit's transitions.  "The producer writes
chunks (fixed-size, e.g. 1KB) and blocks when the consumer (HTTP transport)
has not yet drained prior data": a write can only fire when the pending
data is empty (the producer is blocked otherwise), and the producer of
`main` writes 1024-byte buffers.  A read drains some of the pending
data. -/
inductive PipeStep : PipeState → PipeState → Prop
  | write (s : PipeState) (chunk : List Nat)
      (hEmpty : s.pending = []) (hLen : chunk.length = 1024) :
      PipeStep s { pending := chunk }
  | read (s : PipeState) (n : Nat) :
      PipeStep s { pending := s.pending.drop n }

/-- The conduit starts empty. -/
def pipeInit : PipeState := { pending := [] }

/-- Conduit states reachable from the initial state. -/
def PipeReach (s : PipeState) : Prop :=
  Relation.ReflTransGen PipeStep pipeInit s

/-- Effect of one option-setter on the `output` field alone. -/
def stepOutput (e : OutputEncoding) : Opt → OutputEncoding
  | Opt.output e2 => e2
  | _ => e

/-- Effect of one option-setter on the `language` field alone. -/
def stepLanguage (s : String) : Opt → String
  | Opt.language s2 => s2
  | _ => s

/-- A microphone-loop input on which the loop keeps running: a read with
`n > 0` whose pipe write succeeds. -/
def goodRead : MicEvent → Bool
  | MicEvent.read _ true => true
  | _ => false

/-- Whether the option building ended in `panic` (`BuildFailure` has no
other constructor: the only failure `fromFlags` can raise is the Go
`panic(err)`). -/
def isPanic : Except BuildFailure Options → Bool
  | Except.error _ => true
  | Except.ok _ => false

/-- Whether an `Except` result is a failure. -/
def exceptFailed (r : Except String Nat) : Bool :=
  match r with
  | Except.error _ => true
  | Except.ok _ => false

/-- Whether file-mode preprocessing fails: `goflac.ParseFile` errors, or
`GetStreamInfo` errors. -/
def flacFailed (w : World) : Bool :=
  match w.flacParse with
  | Except.error _ => true
  | Except.ok m => exceptFailed m.streamInfo

/-- Default flags plus `-output json`. -/
def jsonFlags : Flags := { defaultFlags with output := "json" }

/-- The configuration built from the default flags. -/
def defaultOptions : Options :=
  { language := "null", maxAlternatives := 1, profanityFilter := 2,
    userAgent := DefaultUserAgent }

/-- The configuration built from the default flags with `-output json`. -/
def jsonOptions : Options :=
  { output := OutputEncoding.Text, language := "null", maxAlternatives := 1,
    profanityFilter := 2, userAgent := DefaultUserAgent }

/-- Default flags plus a file path: file-transcription mode. -/
def fileFlags : Flags := { defaultFlags with filePath := "a.flac" }

/-- The configuration built from `fileFlags`. -/
def fileOptions : Options :=
  { filePath := "a.flac", language := "null", maxAlternatives := 1,
    profanityFilter := 2, userAgent := DefaultUserAgent }

/-- Default flags plus `-interim`. -/
def interimFlags : Flags := { defaultFlags with interim := true }

/-- The configuration built from `interimFlags`. -/
def interimOptions : Options :=
  { interim := true, language := "null", maxAlternatives := 1,
    profanityFilter := 2, userAgent := DefaultUserAgent }

/-- A world whose FLAC file fails to parse. -/
def badFlacWorld : World := { flacParse := Except.error "bad flac", stdin := [] }

/-- A world with a well-formed 44100 Hz FLAC file. -/
def goodFlacWorld : World :=
  { flacParse := Except.ok { streamInfo := Except.ok 44100, marshal := [1, 2, 3] },
    stdin := [] }

lemma foldl_applyOpt_output (l : List Opt) (o : Options) :
    (l.foldl applyOpt o).output = l.foldl stepOutput o.output := by
  induction l generalizing o with
  | nil => rfl
  | cons x xs ih =>
    rw [List.foldl_cons, List.foldl_cons, ih]
    congr 1
    cases x <;> rfl

lemma foldl_applyOpt_language (l : List Opt) (o : Options) :
    (l.foldl applyOpt o).language = l.foldl stepLanguage o.language := by
  induction l generalizing o with
  | nil => rfl
  | cons x xs ih =>
    rw [List.foldl_cons, List.foldl_cons, ih]
    congr 1
    cases x <;> rfl

lemma numOpt_shape (mk : Int → Opt) (s : String) (l : List Opt)
    (h : numOpt mk s = Except.ok l) : l = [] ∨ ∃ n, l = [mk n] := by
  unfold numOpt at h
  split at h
  · injection h with h
    exact Or.inl h.symm
  · split at h
    · cases h
    · injection h with h
      exact Or.inr ⟨_, h.symm⟩

lemma fromFlags_ok (f : Flags) (o : Options) (h : fromFlags f = Except.ok o) :
    ∃ ma pf, numOpt Opt.maxAlts f.maxAlts = Except.ok ma ∧
      numOpt Opt.profanityFilter f.pFilter = Except.ok pf ∧
      o = applyAll (pureOpts f ++ ma ++ pf ++
        [Opt.userAgent (getOrDefault f.userAgent DefaultUserAgent)]) := by
  unfold fromFlags at h
  rcases hma : numOpt Opt.maxAlts f.maxAlts with e | ma
  · rw [hma] at h
    cases h
  · rw [hma] at h
    rcases hpf : numOpt Opt.profanityFilter f.pFilter with e | pf
    · rw [hpf] at h
      cases h
    · rw [hpf] at h
      have h2 : Except.ok (applyAll (pureOpts f ++ ma ++ pf ++
          [Opt.userAgent (getOrDefault f.userAgent DefaultUserAgent)])) = Except.ok o := h
      injection h2 with h2
      exact ⟨ma, pf, rfl, rfl, h2.symm⟩

lemma fromFlags_isError_of_badNum (f : Flags)
    (h : (f.maxAlts ≠ "" ∧ atoi f.maxAlts = none) ∨
         (f.pFilter ≠ "" ∧ atoi f.pFilter = none)) :
    ∃ e, fromFlags f = Except.error e := by
  rcases h with ⟨hne, hnone⟩ | ⟨hne, hnone⟩
  · refine ⟨BuildFailure.panic f.maxAlts, ?_⟩
    unfold fromFlags numOpt
    rw [if_neg hne, hnone]
  · rcases hma : numOpt Opt.maxAlts f.maxAlts with e | ma
    · refine ⟨e, ?_⟩
      unfold fromFlags
      rw [hma]
    · refine ⟨BuildFailure.panic f.pFilter, ?_⟩
      unfold fromFlags
      rw [hma]
      unfold numOpt
      rw [if_neg hne, hnone]

lemma foldl_stepOutput_pureOpts (f : Flags) (e : OutputEncoding) :
    (pureOpts f).foldl stepOutput e =
      if f.output ≠ "" then
        (if f.output = "json" then OutputEncoding.Text else OutputEncoding.Binary)
      else e := by
  unfold pureOpts
  simp only [List.foldl_append]
  split_ifs <;> simp_all [stepOutput]

lemma foldl_stepLanguage_pureOpts (f : Flags) (s : String) :
    (pureOpts f).foldl stepLanguage s =
      if f.language ≠ "" then f.language else s := by
  unfold pureOpts
  simp only [List.foldl_append]
  split_ifs <;> simp_all [stepLanguage]

lemma runMain_ok (f : Flags) (w : World) (o : Options)
    (h : fromFlags f = Except.ok o) :
    runMain f w =
      if f.filePath ≠ "" then fileMode w.flacParse o
      else RunOutcome.micStreamed DefaultSampleRate o (micLoop w.stdin initialBuf) := by
  unfold runMain
  rw [h]

lemma fileMode_error (e : String) (o : Options) :
    fileMode (Except.error e) o = RunOutcome.exited 1 := rfl

lemma fileMode_ok (meta : FlacMeta) (o : Options) :
    fileMode (Except.ok meta) o =
      match meta.streamInfo with
      | Except.error _ => RunOutcome.exited 1
      | Except.ok rate => RunOutcome.fileStreamed meta.marshal rate o := rfl

lemma micLoop_cons_true_writes (chunk : List Nat) (rest : List MicEvent) (buf : List Nat) :
    (micLoop (MicEvent.read chunk true :: rest) buf).writes =
      (chunk ++ buf.drop chunk.length) ::
        (micLoop rest (chunk ++ buf.drop chunk.length)).writes := rfl

lemma micLoop_cons_true_outcome (chunk : List Nat) (rest : List MicEvent) (buf : List Nat) :
    (micLoop (MicEvent.read chunk true :: rest) buf).outcome =
      (micLoop rest (chunk ++ buf.drop chunk.length)).outcome := rfl

lemma micLoop_append_outcome (pre : List MicEvent) (rest : List MicEvent)
    (buf : List Nat) (h : ∀ e ∈ pre, goodRead e = true) :
    ∃ buf2, (micLoop (pre ++ rest) buf).outcome = (micLoop rest buf2).outcome := by
  induction pre generalizing buf with
  | nil => exact ⟨buf, rfl⟩
  | cons e pre ih =>
    cases e with
    | read chunk writeOk =>
      cases writeOk with
      | false =>
        have hg := h _ (List.mem_cons_self _ _)
        simp [goodRead] at hg
      | true =>
        obtain ⟨buf2, hb⟩ :=
          ih (chunk ++ buf.drop chunk.length) (fun e he => h e (List.mem_cons_of_mem _ he))
        exact ⟨buf2, by rw [List.cons_append, micLoop_cons_true_outcome]; exact hb⟩
    | eof =>
      have hg := h _ (List.mem_cons_self _ _)
      simp [goodRead] at hg
    | readErr =>
      have hg := h _ (List.mem_cons_self _ _)
      simp [goodRead] at hg

lemma micLoop_writes_length (evs : List MicEvent) (buf : List Nat)
    (hbuf : buf.length = 1024)
    (hevs : ∀ chunk writeOk, MicEvent.read chunk writeOk ∈ evs → chunk.length ≤ 1024) :
    ∀ w ∈ (micLoop evs buf).writes, w.length = 1024 := by
  induction evs generalizing buf with
  | nil => intro w hw; cases hw
  | cons e rest ih =>
    cases e with
    | read chunk writeOk =>
      cases writeOk with
      | false => intro w hw; simp [micLoop] at hw
      | true =>
        intro w hw
        have hc : chunk.length ≤ 1024 := hevs chunk true (List.mem_cons_self _ _)
        have hlen : (chunk ++ buf.drop chunk.length).length = 1024 := by
          simp only [List.length_append, List.length_drop, hbuf]
          omega
        rw [micLoop_cons_true_writes, List.mem_cons] at hw
        rcases hw with rfl | hw
        · exact hlen
        · exact ih (chunk ++ buf.drop chunk.length) hlen
            (fun c b hm => hevs c b (List.mem_cons_of_mem _ hm)) w hw
    | eof => intro w hw; simp [micLoop] at hw
    | readErr => intro w hw; simp [micLoop] at hw

/-- C1: the claim says that after a stdin read returning `n` bytes, only
those `n` bytes are written to the conduit.  The code instead writes the
whole 1024-byte buffer (`pw.Write(bs)` at `src/main.go:108`, not
`pw.Write(bs[:n])`): at the failing input — a single read of one byte `7`
into the fresh zeroed buffer — the loop writes the 1024-byte list
`7 :: replicate 1023 0`, i.e. the one fresh byte followed by 1023 stale
zero bytes, not the 1-byte list `[7]`. -/
theorem c1_mic_write_whole_buffer :
    (micLoop [MicEvent.read [7] true] initialBuf).writes =
      [7 :: List.replicate 1023 0] ∧
    (7 :: List.replicate 1023 0).length = 1024 :=
  ⟨rfl, by simp⟩

/-- C2 counterexample: at the concrete flag value `maxAlts = "abc"`
(unparsable), `fromFlags` does not fail with a recoverable `InvalidOption`
error — it panics (`src/main.go:155`), the only failure its embedding can
produce. -/
theorem c2_counterexample :
    fromFlags { defaultFlags with maxAlts := "abc" } =
      Except.error (BuildFailure.panic "abc") := rfl

/-- C2 amended: for every supplied max-alternatives or profanity-filter
string that is non-empty and cannot be parsed as an integer, configuration
building terminates the process with a panic (not a recoverable
`InvalidOption` failure). -/
theorem c2_amended_panics (f : Flags)
    (h : (f.maxAlts ≠ "" ∧ atoi f.maxAlts = none) ∨
         (f.pFilter ≠ "" ∧ atoi f.pFilter = none)) :
    isPanic (fromFlags f) = true := by
  obtain ⟨e, he⟩ := fromFlags_isError_of_badNum f h
  rw [he]
  rfl

/-- C2 witness: the amended theorem applied at `pFilter = "zz"`. -/
theorem c2_witness :
    isPanic (fromFlags { defaultFlags with pFilter := "zz" }) = true :=
  c2_amended_panics { defaultFlags with pFilter := "zz" } (Or.inr ⟨by decide, rfl⟩)

/-- C3 counterexample: at the concrete inputs — a stdin read error other
than EOF, and a failed conduit write after one successful read was
attempted — the microphone loop's outcome is `os.Exit(1)`
(`src/main.go:117`) resp. `panic` (`src/main.go:110`).  Both terminate the
process at once: no terminal `Error` event followed by `EndOfStream` is
delivered to any caller, contrary to the claim. -/
theorem c3_counterexample :
    (micLoop [MicEvent.readErr] initialBuf).outcome = MicOutcome.exited 1 ∧
    (micLoop [MicEvent.read [7] false] initialBuf).outcome = MicOutcome.panicked :=
  ⟨rfl, rfl⟩

/-- C3 amended: after any prefix of successful reads and writes, a stdin
read error other than EOF makes the process exit with status 1, and a
failed write into the conduit makes it panic; no `Error`/`EndOfStream`
event sequence is surfaced. -/
theorem c3_amended_exit_or_panic (pre : List MicEvent) (chunk : List Nat)
    (h : ∀ e ∈ pre, goodRead e = true) :
    (micLoop (pre ++ [MicEvent.readErr]) initialBuf).outcome = MicOutcome.exited 1 ∧
    (micLoop (pre ++ [MicEvent.read chunk false]) initialBuf).outcome =
      MicOutcome.panicked := by
  constructor
  · obtain ⟨b2, hb⟩ := micLoop_append_outcome pre [MicEvent.readErr] initialBuf h
    rw [hb]
    rfl
  · obtain ⟨b2, hb⟩ :=
      micLoop_append_outcome pre [MicEvent.read chunk false] initialBuf h
    rw [hb]
    rfl

/-- C3 witness: the amended theorem applied after one successful
read-and-write. -/
theorem c3_witness :
    (micLoop ([MicEvent.read [1] true] ++ [MicEvent.readErr]) initialBuf).outcome =
      MicOutcome.exited 1 ∧
    (micLoop ([MicEvent.read [1] true] ++ [MicEvent.read [2] false]) initialBuf).outcome =
      MicOutcome.panicked :=
  c3_amended_exit_or_panic [MicEvent.read [1] true] [2] (by decide)

/-- C4: the claim says that on EOF the producer closes the conduit's write
side so the request body is finalized and the decoder drains remaining
events.  The code instead `break`s (`src/main.go:114`) and `main` returns,
exiting the process: the loop never calls `pw.Close()` (the deferred
closes at `src/main.go:97-98` cannot have run), recorded by the
`pwClosed = false` field of the outcome on every EOF path. -/
theorem c4_eof_exits_without_closing (pre : List MicEvent)
    (h : ∀ e ∈ pre, goodRead e = true) :
    (micLoop (pre ++ [MicEvent.eof]) initialBuf).outcome =
      MicOutcome.brokeEOF false := by
  obtain ⟨b2, hb⟩ := micLoop_append_outcome pre [MicEvent.eof] initialBuf h
  rw [hb]
  rfl

/-- C4 witness: the theorem applied after one successful read-and-write. -/
theorem c4_witness :
    (micLoop ([MicEvent.read [9] true] ++ [MicEvent.eof]) initialBuf).outcome =
      MicOutcome.brokeEOF false :=
  c4_eof_exits_without_closing [MicEvent.read [9] true] (by decide)

/-- C5: for every flag assignment accepted by `fromFlags`, the built
configuration's output encoding is Text exactly when the output flag is
"json", and is Binary when the flag is unspecified (empty) or any other
string. -/
theorem c5_output_encoding (f : Flags) (o : Options)
    (h : fromFlags f = Except.ok o) :
    (o.output = OutputEncoding.Text ↔ f.output = "json") := by
  obtain ⟨ma, pf, hma, hpf, rfl⟩ := fromFlags_ok f o h
  have hout : (applyAll (pureOpts f ++ ma ++ pf ++
      [Opt.userAgent (getOrDefault f.userAgent DefaultUserAgent)])).output =
      if f.output ≠ "" then
        (if f.output = "json" then OutputEncoding.Text else OutputEncoding.Binary)
      else OutputEncoding.Binary := by
    unfold applyAll
    rw [foldl_applyOpt_output,
      show ({} : Options).output = OutputEncoding.Binary from rfl]
    simp only [List.foldl_append, foldl_stepOutput_pureOpts]
    rcases numOpt_shape _ _ _ hma with rfl | ⟨n, rfl⟩ <;>
      rcases numOpt_shape _ _ _ hpf with rfl | ⟨m, rfl⟩ <;>
      simp [stepOutput]
  rw [hout]
  by_cases he : f.output = ""
  · rw [if_neg (not_not_intro he)]
    constructor
    · intro hx
      exact absurd hx (by decide)
    · intro hx
      exact absurd (hx.symm.trans he) (by decide)
  · rw [if_pos he]
    by_cases hj : f.output = "json"
    · rw [if_pos hj]
      exact ⟨fun _ => hj, fun _ => rfl⟩
    · rw [if_neg hj]
      exact ⟨fun hx => absurd hx (by decide), fun hx => absurd hx hj⟩

/-- C5 witness: the theorem applied to the default flags with
`-output json`. -/
theorem c5_witness : jsonOptions.output = OutputEncoding.Text :=
  (c5_output_encoding jsonFlags jsonOptions rfl).mpr rfl

/-- C6: with an unparsable max-alternatives or profanity-filter value, the
run fails while building options — `c.Stream` is never invoked, so no
session is created. -/
theorem c6_invalid_before_streaming (f : Flags) (w : World)
    (h : (f.maxAlts ≠ "" ∧ atoi f.maxAlts = none) ∨
         (f.pFilter ≠ "" ∧ atoi f.pFilter = none)) :
    runMain f w = RunOutcome.configPanic ∧
    streamInvoked (runMain f w) = false := by
  obtain ⟨e, he⟩ := fromFlags_isError_of_badNum f h
  unfold runMain
  rw [he]
  exact ⟨rfl, rfl⟩

/-- C6 witness: the theorem applied at `maxAlts = "x"`. -/
theorem c6_witness :
    runMain { defaultFlags with maxAlts := "x" } badFlacWorld =
      RunOutcome.configPanic ∧
    streamInvoked (runMain { defaultFlags with maxAlts := "x" } badFlacWorld) =
      false :=
  c6_invalid_before_streaming { defaultFlags with maxAlts := "x" } badFlacWorld
    (Or.inl ⟨by decide, rfl⟩)

/-- C7: the sample rate passed to `c.Stream` is the file's declared sample
rate (from its stream info, available before streaming) when a file path
is given, and `opts.DefaultSampleRate` in microphone (stdin) mode. -/
theorem c7_sample_rate_source :
    (∀ (f : Flags) (w : World) (o : Options) (meta : FlacMeta) (rate : Nat),
      fromFlags f = Except.ok o → f.filePath ≠ "" →
      w.flacParse = Except.ok meta → meta.streamInfo = Except.ok rate →
      runMain f w = RunOutcome.fileStreamed meta.marshal rate o) ∧
    (∀ (f : Flags) (w : World) (o : Options),
      fromFlags f = Except.ok o → f.filePath = "" →
      runMain f w =
        RunOutcome.micStreamed DefaultSampleRate o (micLoop w.stdin initialBuf)) := by
  constructor
  · intro f w o meta rate hok hfile hp hsi
    rw [runMain_ok f w o hok, if_pos hfile, hp, fileMode_ok, hsi]
  · intro f w o hok hfile
    rw [runMain_ok f w o hok, if_neg (not_not_intro hfile)]

/-- C7 witness: the theorem applied to a 44100 Hz file and to microphone
mode under the default flags. -/
theorem c7_witness :
    runMain fileFlags goodFlacWorld =
      RunOutcome.fileStreamed [1, 2, 3] 44100 fileOptions ∧
    runMain defaultFlags goodFlacWorld =
      RunOutcome.micStreamed DefaultSampleRate defaultOptions
        (micLoop goodFlacWorld.stdin initialBuf) :=
  ⟨c7_sample_rate_source.1 fileFlags goodFlacWorld fileOptions
      { streamInfo := Except.ok 44100, marshal := [1, 2, 3] } 44100
      rfl (by decide) rfl rfl,
   c7_sample_rate_source.2 defaultFlags goodFlacWorld defaultOptions rfl rfl⟩

/-- C8: in microphone mode every successful conduit write is exactly the
1024-byte (1KB) buffer, provided each stdin read returns at most the
buffer's 1024 bytes; and in the backpressured conduit — where a producer
write can only happen once the consumer has drained the prior data — the
buffered data never exceeds the fixed 1024-byte bound in any reachable
state. -/
theorem c8_chunking_and_backpressure :
    (∀ (evs : List MicEvent),
      (∀ chunk writeOk, MicEvent.read chunk writeOk ∈ evs → chunk.length ≤ 1024) →
      ∀ w ∈ (micLoop evs initialBuf).writes, w.length = 1024) ∧
    (∀ s : PipeState, PipeReach s → s.pending.length ≤ 1024) := by
  constructor
  · intro evs hevs
    exact micLoop_writes_length evs initialBuf (List.length_replicate 1024 0) hevs
  · intro s hs
    induction hs with
    | refl => exact Nat.zero_le 1024
    | tail hreach hstep ih =>
      cases hstep with
      | write chunk hEmpty hLen => exact hLen.le
      | read n =>
        simp only [List.length_drop]
        omega

/-- C8 witness: the theorem applied to a one-read input (an empty read
chunk) and to the initial conduit state. -/
theorem c8_witness :
    (List.replicate 1024 0).length = 1024 ∧ pipeInit.pending.length ≤ 1024 :=
  ⟨c8_chunking_and_backpressure.1 [MicEvent.read [] true]
      (by
        intro chunk writeOk hm
        rw [List.mem_singleton] at hm
        injection hm with h1 h2
        rw [h1]
        exact Nat.zero_le 1024)
      (List.replicate 1024 0)
      (by rw [micLoop_cons_true_writes]; exact List.mem_cons_self _ _),
   c8_chunking_and_backpressure.2 pipeInit Relation.ReflTransGen.refl⟩

/-- C9 counterexample: under the default flags (no language supplied), the
built configuration's language field is "null" — the flag default at
`src/main.go:55` — and not the sentinel "auto" the claim states. -/
theorem c9_counterexample :
    fromFlags defaultFlags = Except.ok defaultOptions ∧
    defaultOptions.language ≠ "auto" :=
  ⟨rfl, by decide⟩

/-- C9 amended: when no language is explicitly supplied (the language flag
still holds its default "null"), the built configuration's language field
is the sentinel "null". -/
theorem c9_amended_language_sentinel (f : Flags) (o : Options)
    (hlang : f.language = "null") (h : fromFlags f = Except.ok o) :
    o.language = "null" := by
  obtain ⟨ma, pf, hma, hpf, rfl⟩ := fromFlags_ok f o h
  unfold applyAll
  rw [foldl_applyOpt_language]
  simp only [List.foldl_append, foldl_stepLanguage_pureOpts]
  rcases numOpt_shape _ _ _ hma with rfl | ⟨n, rfl⟩ <;>
    rcases numOpt_shape _ _ _ hpf with rfl | ⟨m, rfl⟩ <;>
    simp [stepLanguage, hlang]

/-- C9 witness: the amended theorem applied to the default flags plus
`-interim`. -/
theorem c9_witness : interimOptions.language = "null" :=
  c9_amended_language_sentinel interimFlags interimOptions rfl rfl

/-- C10: in file mode, when the file fails to parse as FLAC or its stream
info cannot be read, the run exits with status 1 (`src/main.go:78` and
`src/main.go:83`) and `c.Stream` is never invoked. -/
theorem c10_bad_file_exits_before_streaming (f : Flags) (w : World) (o : Options)
    (hok : fromFlags f = Except.ok o) (hfile : f.filePath ≠ "")
    (hbad : flacFailed w = true) :
    runMain f w = RunOutcome.exited 1 ∧
    streamInvoked (runMain f w) = false := by
  have hrm : runMain f w = fileMode w.flacParse o := by
    rw [runMain_ok f w o hok, if_pos hfile]
  rcases hp : w.flacParse with e | meta
  · rw [hrm, hp, fileMode_error]
    exact ⟨rfl, rfl⟩
  · have hfb : flacFailed w = exceptFailed meta.streamInfo := by
      unfold flacFailed
      rw [hp]
    rcases hsi : meta.streamInfo with e2 | rate
    · rw [hrm, hp, fileMode_ok, hsi]
      exact ⟨rfl, rfl⟩
    · rw [hfb, hsi] at hbad
      cases hbad

/-- C10 witness: the theorem applied to a file that fails FLAC parsing. -/
theorem c10_witness :
    runMain fileFlags badFlacWorld = RunOutcome.exited 1 ∧
    streamInvoked (runMain fileFlags badFlacWorld) = false :=
  c10_bad_file_exits_before_streaming fileFlags badFlacWorld fileOptions
    rfl (by decide) rfl

end Gsst
